import Mathlib

/-!
Verification development for the Debridarr job-lifecycle orchestrator
(`src/scripts/app.py`).  The definitions below are a shallow embedding of
the `MagnetHandler` class and of the module-level helpers it relies on.

Modelling conventions:
* File paths are modelled by their basenames (the code derives
  `filename = os.path.basename(file_path)` and all directories are flat),
  so a directory is a `List String` of the names it contains.
* Python dicts are modelled as association lists in insertion order
  (Python dicts iterate in insertion order); Python sets as duplicate-free
  lists built by `insertS`.
* Remote HTTP interactions are environment inputs: each call's reply is a
  value supplied to the embedded function, and the calls the code makes
  are recorded in an explicit trace.
* `os.rename` / `os.remove` / `os.makedirs` are modelled as succeeding
  (the code retries and/or swallows OS-level errors around them).
-/

namespace Debridarr

/-! ### Association-list and set helpers (Python dict / set operations) -/

/-- `m.get(k)` on a Python dict modelled as an association list. -/
def lookupE {α : Type} (m : List (String × α)) (k : String) : Option α :=
  (m.find? (fun e => e.1 == k)).map (·.2)

/-- `m.get(k, d)` on a Python dict. -/
def getE {α : Type} (m : List (String × α)) (k : String) (d : α) : α :=
  (lookupE m k).getD d

/-- `m[k] = v` on a Python dict: updates in place, appends a new key. -/
def setE {α : Type} : List (String × α) → String → α → List (String × α)
  | [], k, v => [(k, v)]
  | (k', v') :: rest, k, v =>
    if k' == k then (k', v) :: rest else (k', v') :: setE rest k v

/-- `m.pop(k, None)` on a Python dict: a dict holds each key at most
once, so removing the key is dropping every entry carrying it. -/
def eraseE {α : Type} (m : List (String × α)) (k : String) : List (String × α) :=
  m.filter (fun e => e.1 ≠ k)

/-- `s.add(x)` on a Python set (duplicate-free list). -/
def insertS (l : List String) (x : String) : List String :=
  if l.contains x then l else l ++ [x]

/-- `s.discard(x)` on a Python set. -/
def eraseS (l : List String) (x : String) : List String :=
  l.filter (fun y => y ≠ x)

/-! ### Cache-status polling (`wait_for_torrent`, app.py lines 566-649) -/

/-- One HTTP-200 reply of the poll-status call: the `status` string and the
`progress` percentage reported by the remote caching service. -/
structure Sample where
  status : String
  progress : Nat
deriving DecidableEq, Repr

/-- `zero_progress_count >= 60` bound (app.py line 606): 60 samples at the
10-second poll interval, i.e. 10 minutes. -/
def deadThreshold : Nat := 60

/-- Outcome of processing one poll sample in `wait_for_torrent`'s loop
body (app.py lines 598-649), given the current `zero_progress_count`. -/
inductive PollOutcome where
  | dead
  | completed
  | polling (zeroCount : Nat)
deriving DecidableEq, Repr

/-- One iteration of `wait_for_torrent`'s status-200 branch: the counter
increments when `progress == 0 and status not in ['downloaded',
'downloading']`, is reset to 0 otherwise, and the function returns
`'DEAD'` at the threshold or the results once `status == 'downloaded'`
(app.py lines 598-648). -/
def pollSample (zc : Nat) (s : Sample) : PollOutcome :=
  if s.progress = 0 ∧ s.status ≠ "downloaded" ∧ s.status ≠ "downloading" then
    if deadThreshold ≤ zc + 1 then .dead
    else if s.status = "downloaded" then .completed
    else .polling (zc + 1)
  else if s.status = "downloaded" then .completed
  else .polling 0

/-- `wait_for_torrent`'s polling loop run over a finite window of status
replies, starting from counter `zc`.  `polling zc'` means the loop is
still running (the real loop has no other exit: `while True`, app.py
line 579). -/
def pollRun (zc : Nat) : List Sample → PollOutcome
  | [] => .polling zc
  | s :: rest =>
    match pollSample zc s with
    | .polling zc2 => pollRun zc2 rest
    | out => out

/-- The polling loop with the job's membership in `processing_files`
recorded per iteration, together with the number of samples the loop
consumes.  `wait_for_torrent`'s body (app.py lines 579-649) contains no
`processing_files` membership test, so the observation argument is,
faithfully, never consulted. -/
def pollRunObs (member : Nat → Bool) : Nat → Nat → List Sample → PollOutcome × Nat
  | zc, i, [] => (.polling zc, i)
  | zc, i, s :: rest =>
    match pollSample zc s with
    | .polling zc2 => pollRunObs member zc2 (i + 1) rest
    | out => (out, i + 1)

/-! ### Handler state and directories -/

/-- The in-memory tracking structures of `MagnetHandler` (app.py lines
37-48).  Dict values irrelevant to the claims are reduced: the keys of
`download_progress` and `ready_to_download` are kept (their values are
UI snapshots), and `file_downloads` keeps the number of per-file entries. -/
structure HandlerState where
  max_workers : Nat
  processing_files : List String
  downloading_files : List String
  queued_for_download : List (String × List (String × String))
  ready_to_download : List String
  download_progress : List String
  file_downloads : List (String × Nat)
  retry_attempts : List (String × Nat)
  retry_cooldown : List (String × Nat)
  torrent_ids : List (String × String)
  upload_timestamps : List (String × Nat)
deriving DecidableEq, Repr

/-- A fresh handler for a given performance-profile worker count. -/
def HandlerState.init (w : Nat) : HandlerState :=
  ⟨w, [], [], [], [], [], [], [], [], [], []⟩

/-- The four per-client directories (spec §6); membership of a name in a
list models the file's presence in that directory. -/
structure Dirs where
  inbox : List String
  in_progress : List String
  completed_magnets : List String
  failed_magnets : List String
deriving DecidableEq, Repr

/-- Remote-API calls the controller can make, for the effect trace. -/
inductive RemoteCall where
  | submit
  | selectFiles
  | deleteTorrent
deriving DecidableEq, Repr

/-- `on_created` (app.py lines 57-81): record the job in
`processing_files`, stamp `upload_timestamps` with the detection time and
initialise its `download_progress` entry, then hand the job to the
executor.  `process_existing_magnets` (lines 1264-1270) performs the same
insertions when the periodic rescan claims a descriptor. -/
def onCreated (st : HandlerState) (p : String) (t : Nat) : HandlerState :=
  { st with
    processing_files := insertS st.processing_files p
    upload_timestamps := setE st.upload_timestamps p t
    download_progress := insertS st.download_progress p }

/-! ### Remote submission (`add_torrent`, app.py lines 439-480) -/

/-- The reply to the submit call: an HTTP status with the torrent id the
201 body would carry, or a network-level exception. -/
inductive HttpReply where
  | status (code : Nat) (tid : String)
  | netError
deriving DecidableEq, Repr

/-- `add_torrent`'s return value: a torrent id, the `'FAILED'` marker, or
Python `None`. -/
inductive AddResult where
  | ok (tid : String)
  | failed
  | nothing
deriving DecidableEq, Repr

/-- Local effects of one `add_torrent` call. -/
inductive Effect where
  | submitted
  | slept (seconds : Nat)
deriving DecidableEq, Repr

/-- `add_torrent` (app.py lines 439-480): one POST is issued; 201 yields
the torrent id; 429 logs, sleeps 60 seconds and returns `None`; every
other HTTP status returns `'FAILED'` (all parsed error codes and the
fall-through alike, lines 464-477); a network exception returns `None`.
`add_torrent_file` (lines 482-539) handles its reply identically. -/
def add_torrent : HttpReply → AddResult × List Effect
  | .status 201 tid => (.ok tid, [.submitted])
  | .status 429 _ => (.nothing, [.submitted, .slept 60])
  | .status _ _ => (.failed, [.submitted])
  | .netError => (.nothing, [.submitted])

/-- Count of submit POSTs in an effect trace. -/
def countSubmits (effs : List Effect) : Nat :=
  (effs.filter (· == Effect.submitted)).length

/-! ### Waiting for the cache (`wait_for_torrent` as used by the upload phase) -/

/-- `wait_for_torrent`'s result over a finite observation window:
`'DEAD'`, the resolved `(download_link, filename)` results once the
status is `downloaded`, or still polling.  The per-link unrestrict step
(app.py lines 636-646) is environment-supplied: a hoster-unavailable
reply appears as the `'HOSTER_UNAVAILABLE'` link marker in `links`.
The 404 re-add path (lines 582-597) is outside this window model. -/
inductive WaitResult where
  | dead
  | cached (results : List (String × String))
  | polling (zc : Nat)
deriving DecidableEq, Repr

def wait_for_torrent (samples : List Sample) (links : List (String × String)) : WaitResult :=
  match pollRun 0 samples with
  | .dead => .dead
  | .completed => .cached links
  | .polling zc => .polling zc

/-! ### Download-queue admission (`_process_download_queue`, app.py lines 234-263) -/

/-- A queued item as built at app.py line 247:
`(timestamp, file_path, results)`. -/
abbrev QItem : Type := Nat × String × List (String × String)

/-- The sort order of app.py line 250: ascending upload timestamp. -/
def tsLE (a b : QItem) : Prop := a.1 ≤ b.1

instance : DecidableRel tsLE := fun a b => Nat.decLe a.1 b.1

instance : IsTotal QItem tsLE := ⟨fun a b => Nat.le_total a.1 b.1⟩

instance : IsTrans QItem tsLE := ⟨fun _ _ _ => Nat.le_trans⟩

/-- The eligible queue as assembled at app.py lines 243-247: items of
`queued_for_download` whose path is still in `processing_files` (not
aborted), tagged with `upload_timestamps.get(path, 0)`. -/
def eligibleItems (st : HandlerState) : List QItem :=
  (st.queued_for_download.filter (fun q => st.processing_files.contains q.1)).map
    (fun q => (getE st.upload_timestamps q.1 0, q.1, q.2))

/-- Starting one queued item (app.py lines 256-261): remove it from
`queued_for_download`, add it to `downloading_files` and submit the
download to the executor. -/
def startItem (st : HandlerState) (item : QItem) : HandlerState :=
  { st with
    queued_for_download := eraseE st.queued_for_download item.2.1
    downloading_files := insertS st.downloading_files item.2.1 }

/-- `_process_download_queue` (app.py lines 234-263): with
`available = max_workers - len(downloading_files)` slots (the guard at
line 239 returns early when none are free or nothing is queued), the
eligible items are sorted by timestamp with a stable sort (Python
`list.sort(key=...)`; `List.insertionSort` is stable) and the first
`min(available, len(queued_items))` of them are started.  Returns the
new state and the started items in start order. -/
def processDownloadQueue (st : HandlerState) : HandlerState × List QItem :=
  let available := st.max_workers - st.downloading_files.length
  if available = 0 ∨ st.queued_for_download = [] then (st, [])
  else
    let sorted := List.insertionSort tsLE (eligibleItems st)
    let started := sorted.take (min available sorted.length)
    (started.foldl startItem st, started)

/-! ### Terminal cleanup -/

/-- The `finally` block of `_download_files_from_queue` (app.py lines
381-390): the job is removed from every tracking structure.  The
`except` block of `_process_magnet_wrapper` (lines 86-97) performs the
same removals when an exception escapes `process_magnet`.  Note that
`retry_attempts` and `retry_cooldown` are deliberately not cleared here. -/
def cleanupTracking (st : HandlerState) (p : String) : HandlerState :=
  { st with
    downloading_files := eraseS st.downloading_files p
    processing_files := eraseS st.processing_files p
    queued_for_download := eraseE st.queued_for_download p
    download_progress := eraseS st.download_progress p
    file_downloads := eraseE st.file_downloads p
    torrent_ids := eraseE st.torrent_ids p
    ready_to_download := eraseS st.ready_to_download p
    upload_timestamps := eraseE st.upload_timestamps p }

/-! ### The upload/caching phase (`_upload_and_cache_magnet`, app.py lines 114-227) -/

/-- The environment of one upload/caching run: the reply to the submit
call, the `select_files` outcome, the poll-status replies, and the
resolved links delivered once the torrent reports `downloaded`. -/
structure RemoteEnv where
  add : HttpReply
  selectOk : Bool
  samples : List Sample
  links : List (String × String)
deriving Repr

/-- How one upload/caching run ended. -/
inductive UploadOutcome where
  | skippedMissing
  | duplicateRemoved
  | abandoned
  | permanentFailed
  | selectFailed
  | deadFailed
  | stillPolling (zc : Nat)
  | queued (results : List (String × String))
deriving DecidableEq, Repr

structure UploadResult where
  track : HandlerState
  dirs : Dirs
  outcome : UploadOutcome
  calls : List RemoteCall
deriving Repr

/-- Move the descriptor from the inbox to the failed-magnets directory
(the repeated pattern at app.py lines 158-164, 173-179, 186-192,
196-202). -/
def moveToFailed (dirs : Dirs) (p : String) : Dirs :=
  { dirs with
    inbox := eraseS dirs.inbox p
    failed_magnets := insertS dirs.failed_magnets p }

/-- `_upload_and_cache_magnet` (app.py lines 114-227).  In order: skip if
the file vanished (line 121); if the name already sits in
`completed_magnets_folder`, delete the inbox duplicate and return
(lines 126-131); submit (lines 136-154; `None` abandons, `'FAILED'`
moves the descriptor to the failed directory); record the torrent id
(line 168); `select_files` failure deletes the remote torrent and moves
the descriptor to failed (lines 171-180); then `wait_for_torrent`:
`'DEAD'` or failure deletes the torrent and moves the descriptor to
failed (lines 183-203), while success initialises `file_downloads`,
queues the results and kicks `_process_download_queue`
(lines 205-223). -/
def uploadAndCacheMagnet (st : HandlerState) (dirs : Dirs) (p : String)
    (env : RemoteEnv) : UploadResult :=
  if ¬ dirs.inbox.contains p then
    ⟨st, dirs, .skippedMissing, []⟩
  else if dirs.completed_magnets.contains p then
    ⟨st, { dirs with inbox := eraseS dirs.inbox p }, .duplicateRemoved, []⟩
  else
    match add_torrent env.add with
    | (.nothing, _) => ⟨st, dirs, .abandoned, [.submit]⟩
    | (.failed, _) => ⟨st, moveToFailed dirs p, .permanentFailed, [.submit]⟩
    | (.ok tid, _) =>
      let st1 := { st with torrent_ids := setE st.torrent_ids p tid }
      if ¬ env.selectOk then
        ⟨st1, moveToFailed dirs p, .selectFailed, [.submit, .selectFiles, .deleteTorrent]⟩
      else
        match wait_for_torrent env.samples env.links with
        | .dead =>
          ⟨st1, moveToFailed dirs p, .deadFailed, [.submit, .selectFiles, .deleteTorrent]⟩
        | .polling zc =>
          ⟨st1, dirs, .stillPolling zc, [.submit, .selectFiles]⟩
        | .cached results =>
          let entries := results.filter (fun r => r.1 ≠ "" ∧ r.2 ≠ "")
          let st2 := { st1 with
            file_downloads := setE st1.file_downloads p entries.length
            download_progress := insertS st1.download_progress p
            queued_for_download := setE st1.queued_for_download p results }
          let st3 := (processDownloadQueue st2).1
          ⟨st3, dirs, .queued results, [.submit, .selectFiles]⟩

/-! ### The download phase (`_download_files_from_queue`, app.py lines 265-391) -/

/-- The `'HOSTER_UNAVAILABLE'` marker returned by `unrestrict_link` on
Real-Debrid error 19 (app.py lines 782-788) and scanned for at lines
274-278. -/
def hosterMarker : String := "HOSTER_UNAVAILABLE"

structure DownloadRunResult where
  track : HandlerState
  dirs : Dirs
  submitted : List Nat
  aborted : Bool
  calls : List RemoteCall
deriving Repr

/-- `_download_files_from_queue` (app.py lines 265-391) for one job.
`results` are the `(download_link, filename)` pairs; `entryOutcomes`
records whether each submitted per-file download succeeded — per-entry
exceptions are only logged (lines 327-332, and `download_file` swallows
its own network and I/O errors at lines 933-936), so the argument is,
faithfully, never consulted by the job-level control flow;
`abortedMid` is whether the wait loop observed the job's removal from
`processing_files` (lines 297-307).  When no entry carries the
hoster-unavailable marker, every entry with a truthy link and filename
is submitted (lines 287-293); an abort cancels the rest and deletes the
remote torrent.  A hoster-unavailable marker increments
`retry_attempts`: the third attempt moves the descriptor to the failed
directory and clears the retry maps (lines 338-348), earlier attempts
set a 10-minute `retry_cooldown` (lines 349-352).  Otherwise the remote
torrent is deleted and the descriptor is moved to the completed-magnets
directory (lines 354-377) — regardless of `entryOutcomes`.  The
`finally` block (lines 381-391) always clears the tracking structures
and kicks `_process_download_queue`. -/
def downloadFilesFromQueue (st : HandlerState) (dirs : Dirs) (p : String)
    (results : List (String × String)) (entryOutcomes : List Bool)
    (abortedMid : Bool) (now : Nat) : DownloadRunResult :=
  let _ := entryOutcomes
  let hoster := results.any (fun r => r.1 == hosterMarker)
  let submitted :=
    if hoster then []
    else (List.range results.length).filter
      (fun i => match results.get? i with
        | some r => r.1 ≠ "" ∧ r.2 ≠ ""
        | none => False)
  if ¬ hoster ∧ abortedMid then
    -- abort observed in the wait loop: cancel, delete the torrent, return
    -- through the finally block; the descriptor file is not moved.
    let calls := if (lookupE st.torrent_ids p).isSome then [RemoteCall.deleteTorrent] else []
    let st1 := cleanupTracking st p
    ⟨(processDownloadQueue st1).1, dirs, submitted, true, calls⟩
  else if hoster then
    let n := getE st.retry_attempts p 0 + 1
    let st1 := { st with retry_attempts := setE st.retry_attempts p n }
    if 3 ≤ n then
      let st2 := { st1 with
        retry_attempts := eraseE st1.retry_attempts p
        retry_cooldown := eraseE st1.retry_cooldown p }
      let st3 := cleanupTracking st2 p
      ⟨(processDownloadQueue st3).1, moveToFailed dirs p, submitted, false, []⟩
    else
      let st2 := { st1 with retry_cooldown := setE st1.retry_cooldown p (now + 600) }
      let st3 := cleanupTracking st2 p
      ⟨(processDownloadQueue st3).1, dirs, submitted, false, []⟩
  else
    let calls := if (lookupE st.torrent_ids p).isSome then [RemoteCall.deleteTorrent] else []
    let dirs1 :=
      if dirs.inbox.contains p then
        { dirs with
          inbox := eraseS dirs.inbox p
          completed_magnets := insertS dirs.completed_magnets p }
      else dirs
    let st1 := cleanupTracking st p
    ⟨(processDownloadQueue st1).1, dirs1, submitted, false, calls⟩

/-! ### Periodic rescan (`process_existing_magnets`, app.py lines 1242-1274) -/

/-- What the rescan did with one inbox descriptor. -/
inductive RescanAction where
  | skippedProcessing
  | skippedCooldown
  | resubmitted
deriving DecidableEq, Repr

/-- `process_existing_magnets` for a single inbox file (app.py lines
1249-1270): skip files already tracked (line 1252); skip files whose
retry cooldown has not elapsed, popping the cooldown entry once it has
(lines 1257-1261); otherwise claim the file exactly as `on_created`
does and submit it to the executor. -/
def processExistingMagnet (st : HandlerState) (p : String) (now : Nat) :
    HandlerState × RescanAction :=
  if st.processing_files.contains p ∨ st.ready_to_download.contains p then
    (st, .skippedProcessing)
  else
    match lookupE st.retry_cooldown p with
    | some deadline =>
      if now < deadline then (st, .skippedCooldown)
      else
        let st1 := { st with retry_cooldown := eraseE st.retry_cooldown p }
        ({ st1 with
            processing_files := insertS st1.processing_files p
            download_progress := insertS st1.download_progress p }, .resubmitted)
    | none =>
      ({ st with
          processing_files := insertS st.processing_files p
          download_progress := insertS st.download_progress p }, .resubmitted)

/-! ### Cooperative cancellation loops -/

/-- The per-chunk loop of `download_file` (app.py lines 832-841): before
writing each chunk the loop tests `file_path not in self.processing_files`
and, on removal, deletes the partial staging file and returns.  `obs`
records the membership observed at each chunk boundary; the result is
`(chunks written, staging file deleted, aborted)`. -/
def chunkLoopGo : List Bool → Nat → Nat × Bool × Bool
  | [], w => (w, false, false)
  | b :: rest, w => if ¬ b then (w, true, true) else chunkLoopGo rest (w + 1)

/-- Outcome of the future-watching loop at app.py lines 296-324. -/
inductive WaitLoopOutcome where
  | aborted
  | alldone
  | observing
deriving DecidableEq, Repr

/-- The wait loop of `_download_files_from_queue` (app.py lines 296-324):
while fewer than `total` futures are done, each iteration first tests
`file_path not in self.processing_files` (aborting if so), then samples
the completed count.  `obs` lists the `(membership, completed count)`
observed per iteration; `observing` means the window ended mid-loop. -/
def waitLoopGo (total : Nat) : Nat → List (Bool × Nat) → WaitLoopOutcome
  | completed, [] => if total ≤ completed then .alldone else .observing
  | completed, (m, c) :: rest =>
    if total ≤ completed then .alldone
    else if ¬ m then .aborted
    else waitLoopGo total c rest

/-! ### Archive post-processing (app.py lines 870-911, 954-1006) -/

/-- `is_archive_file`'s extension set (app.py lines 956-959). -/
def archive_extensions : List String :=
  [".zip", ".rar", ".7z", ".tar", ".tar.gz", ".tgz",
   ".tar.bz2", ".tbz2", ".tar.xz", ".txz", ".gz", ".bz2", ".xz"]

/-- ASCII lower-casing of one character (Python `str.lower()` restricted
to ASCII, which covers the extensions and markers compared here). -/
def charLower (c : Char) : Char :=
  if 65 ≤ c.toNat ∧ c.toNat ≤ 90 then Char.ofNat (c.toNat + 32) else c

/-- `s.lower()`. -/
def strLower (s : String) : String := String.mk (s.toList.map charLower)

/-- `s.endswith(pat)`. -/
def strEndsWith (s pat : String) : Bool := pat.toList.isSuffixOf s.toList

/-- `is_archive_file` (app.py lines 954-962). -/
def is_archive_file (path : String) : Bool :=
  archive_extensions.any (fun ext => strEndsWith (strLower path) ext)

/-- Python's `sub in s` substring test, on the character lists. -/
def hasSub (pat : List Char) : List Char → Bool
  | [] => pat.isEmpty
  | c :: rest => pat.isPrefixOf (c :: rest) || hasSub pat rest

/-- `sub in s` for strings. -/
def strContainsSub (s sub : String) : Bool :=
  hasSub sub.toList s.toList

/-- The suspicious-executable markers of app.py line 976. -/
def suspiciousMarkers : List String := [".exe", ".bat", ".cmd", ".scr", ".com"]

/-- A downloaded file as `validate_archive` observes it: its (base)name,
its size in bytes and the first bytes of its content. -/
structure ArchiveFile where
  path : String
  size : Nat
  header : List Nat
deriving DecidableEq, Repr

/-- `b'PK'`. -/
def zipMagic : List Nat := [80, 75]

/-- `b'Rar!'`. -/
def rarMagic : List Nat := [82, 97, 114, 33]

/-- `b'RE~^'`. -/
def rarOldMagic : List Nat := [82, 69, 126, 94]

/-- `b'7z\xbc\xaf\x27\x1c'`. -/
def sevenZipMagic : List Nat := [55, 122, 188, 175, 39, 28]

/-- `validate_archive` (app.py lines 964-1006): reject files under 1 KiB
(lines 969-972); reject names whose lower-cased basename contains a
suspicious executable marker (lines 974-978); then check the first 10
bytes against the magic signature claimed by the extension for `.zip`,
`.rar` and `.7z` (lines 980-1000); everything else validates. -/
def validate_archive (f : ArchiveFile) : Bool :=
  if f.size < 1024 then false
  else if suspiciousMarkers.any (fun m => strContainsSub (strLower f.path) m) then false
  else
    let header := f.header.take 10
    if strEndsWith (strLower f.path) ".zip" then zipMagic.isPrefixOf header
    else if strEndsWith (strLower f.path) ".rar" then
      rarMagic.isPrefixOf header || rarOldMagic.isPrefixOf header
    else if strEndsWith (strLower f.path) ".7z" then sevenZipMagic.isPrefixOf header
    else true

/-- Where one downloaded file ends up after `download_file`'s
post-processing and move (app.py lines 862-932). -/
inductive FileDisposition where
  | movedToCompleted (name : String)
  | extractedAndDeleted
  | failedExtractKept (name : String)
  | duplicateDiscarded
deriving DecidableEq, Repr

/-- The plain-payload move (app.py lines 907-925): a file already present
in the completed directory discards the staging copy (lines 908-911),
otherwise the staging file is renamed into the completed directory. -/
def normalMove (name : String) (dup : Bool) : FileDisposition :=
  if dup then .duplicateDiscarded else .movedToCompleted name

/-- The post-processing tail of `download_file` (app.py lines 870-911):
with auto-extraction enabled and an archive-named file, validation
failure falls through to the plain move (line 875); successful
extraction into the completed directory deletes the original
(lines 877-888); failed extraction renames the archive to
`FAILED_EXTRACT_<name>` inside the completed directory (lines 891-903).
`extractOk` is the extractor's outcome, `dup` whether the completed
directory already holds the same name. -/
def postProcess (auto_extract : Bool) (f : ArchiveFile) (extractOk : Bool)
    (dup : Bool) : FileDisposition :=
  if auto_extract ∧ is_archive_file f.path then
    if ¬ validate_archive f then normalMove f.path dup
    else if extractOk then .extractedAndDeleted
    else .failedExtractKept ("FAILED_EXTRACT_" ++ f.path)
  else normalMove f.path dup

/-! ### Queue-admission traces (for the FIFO claim) -/

/-- Events that drive the download queue: a job finishing its caching
phase (it is queued and `_process_download_queue` is kicked, app.py
lines 217-221), and a downloading job terminating (its `finally` block
clears the tracking and kicks the queue, lines 381-391). -/
inductive QEvent where
  | cachedReady (p : String) (results : List (String × String))
  | finished (p : String)
deriving Repr

/-- Run a sequence of queue events, logging the order in which jobs are
started (admitted to `downloading_files`). -/
def runQueue (st : HandlerState) : List QEvent → HandlerState × List String
  | [] => (st, [])
  | .cachedReady p results :: evs =>
    let st1 := { st with queued_for_download := setE st.queued_for_download p results }
    let (st2, started) := processDownloadQueue st1
    let (st3, log) := runQueue st2 evs
    (st3, started.map (fun i => i.2.1) ++ log)
  | .finished p :: evs =>
    let st1 := cleanupTracking st p
    let (st2, started) := processDownloadQueue st1
    let (st3, log) := runQueue st2 evs
    (st3, started.map (fun i => i.2.1) ++ log)

/-! ### Shared helper lemmas -/

theorem mem_insertS (l : List String) (x : String) : x ∈ insertS l x := by
  unfold insertS
  split
  · next h => exact List.elem_iff.mp h
  · simp

theorem not_mem_eraseS (l : List String) (x : String) : x ∉ eraseS l x := by
  simp [eraseS]

theorem lookupE_setE {α : Type} (m : List (String × α)) (k : String) (v : α) :
    lookupE (setE m k v) k = some v := by
  induction m with
  | nil => simp [setE, lookupE]
  | cons e rest ih =>
    by_cases h : e.1 == k
    · simp [setE, h, lookupE, List.find?]
    · simp only [setE, if_neg h]
      simpa [lookupE, List.find?, h] using ih

theorem lookupE_eraseE {α : Type} (m : List (String × α)) (k : String) :
    lookupE (eraseE m k) k = none := by
  induction m with
  | nil => simp [eraseE, lookupE]
  | cons e rest ih =>
    by_cases h : e.1 = k
    · simp [eraseE, lookupE, h, ih]
    · simp [eraseE, lookupE, List.find?, h, ih]

theorem foldl_startItem_retry (l : List QItem) :
    ∀ st : HandlerState, ((l.foldl startItem st).retry_attempts = st.retry_attempts ∧
      (l.foldl startItem st).retry_cooldown = st.retry_cooldown ∧
      (l.foldl startItem st).upload_timestamps = st.upload_timestamps ∧
      (l.foldl startItem st).processing_files = st.processing_files) := by
  induction l with
  | nil => intro st; exact ⟨rfl, rfl, rfl, rfl⟩
  | cons i rest ih =>
    intro st
    simpa [List.foldl, startItem] using ih (startItem st i)

theorem processDownloadQueue_retry (st : HandlerState) :
    (processDownloadQueue st).1.retry_attempts = st.retry_attempts ∧
    (processDownloadQueue st).1.retry_cooldown = st.retry_cooldown ∧
    (processDownloadQueue st).1.upload_timestamps = st.upload_timestamps ∧
    (processDownloadQueue st).1.processing_files = st.processing_files := by
  by_cases h : st.max_workers - st.downloading_files.length = 0 ∨ st.queued_for_download = []
  · simp [processDownloadQueue, h]
  · simpa [processDownloadQueue, h] using foldl_startItem_retry _ st

theorem pollRun_dead_aux :
    ∀ (samples : List Sample) (zc : Nat), zc < deadThreshold →
    deadThreshold ≤ zc + samples.length →
    (∀ s ∈ samples, s.progress = 0 ∧ s.status ≠ "downloaded" ∧ s.status ≠ "downloading") →
    pollRun zc samples = PollOutcome.dead := by
  intro samples
  induction samples with
  | nil =>
    intro zc h1 h2 _
    simp at h2
    omega
  | cons s rest ih =>
    intro zc h1 h2 hall
    obtain ⟨hp, hd, hdl⟩ := hall s (List.mem_cons_self s rest)
    by_cases hth : deadThreshold ≤ zc + 1
    · simp [pollRun, pollSample, hp, hd, hdl, hth]
    · have hstep : pollSample zc s = PollOutcome.polling (zc + 1) := by
        simp [pollSample, hp, hd, hdl, hth]
      simp only [pollRun, hstep]
      refine ih (zc + 1) (by omega) (by simp at h2 ⊢; omega) ?_
      intro t ht
      exact hall t (List.mem_cons_of_mem s ht)

theorem pollSample_reset (zc : Nat) (s : Sample) (hp : 0 < s.progress)
    (hd : s.status ≠ "downloaded") : pollSample zc s = PollOutcome.polling 0 := by
  simp [pollSample, hd, Nat.pos_iff_ne_zero.mp hp]

theorem upload_dead_routes_failed (st : HandlerState) (dirs : Dirs) (p : String)
    (env : RemoteEnv) (tid : String)
    (hadd : env.add = HttpReply.status 201 tid) (hsel : env.selectOk = true)
    (hdead : pollRun 0 env.samples = PollOutcome.dead)
    (hin : p ∈ dirs.inbox) (hdup : p ∉ dirs.completed_magnets) :
    (uploadAndCacheMagnet st dirs p env).outcome = UploadOutcome.deadFailed ∧
    p ∈ (uploadAndCacheMagnet st dirs p env).dirs.failed_magnets ∧
    p ∉ (uploadAndCacheMagnet st dirs p env).dirs.inbox ∧
    RemoteCall.deleteTorrent ∈ (uploadAndCacheMagnet st dirs p env).calls := by
  simp [uploadAndCacheMagnet, hin, hdup, hadd, add_torrent, hsel, wait_for_torrent, hdead,
    moveToFailed, mem_insertS, not_mem_eraseS]
/-- Claim C1, counterexample: sixty consecutive samples that each report
progress 0 but status `downloading` do not trigger dead-job detection —
the counter resets on every one of them (app.py line 604 requires the
status to be outside `['downloaded', 'downloading']`), so such a job
keeps polling. -/
theorem C1_counterexample :
    (∀ s ∈ List.replicate 60 (Sample.mk "downloading" 0), s.progress = 0) ∧
    pollRun 0 (List.replicate 60 (Sample.mk "downloading" 0)) ≠ PollOutcome.dead := by
  decide

/-- Claim C1 (amended). -/
theorem C1_dead_job_detection_amended :
    (∀ samples : List Sample, deadThreshold ≤ samples.length →
      (∀ s ∈ samples, s.progress = 0 ∧ s.status ≠ "downloaded" ∧ s.status ≠ "downloading") →
      pollRun 0 samples = PollOutcome.dead) ∧
    (∀ (zc : Nat) (s : Sample), 0 < s.progress → s.status ≠ "downloaded" →
      pollSample zc s = PollOutcome.polling 0) ∧
    (∀ (st : HandlerState) (dirs : Dirs) (p : String) (env : RemoteEnv) (tid : String),
      env.add = HttpReply.status 201 tid → env.selectOk = true →
      pollRun 0 env.samples = PollOutcome.dead →
      p ∈ dirs.inbox → p ∉ dirs.completed_magnets →
      (uploadAndCacheMagnet st dirs p env).outcome = UploadOutcome.deadFailed ∧
      p ∈ (uploadAndCacheMagnet st dirs p env).dirs.failed_magnets ∧
      p ∉ (uploadAndCacheMagnet st dirs p env).dirs.inbox ∧
      RemoteCall.deleteTorrent ∈ (uploadAndCacheMagnet st dirs p env).calls) :=
  ⟨fun samples h1 h2 =>
    pollRun_dead_aux samples 0 (by norm_num [deadThreshold]) (by simpa using h1) h2,
   pollSample_reset,
   upload_dead_routes_failed⟩

/-- Witness for C1 at concrete inputs. -/
theorem C1_witness :
    pollRun 0 (List.replicate 60 (Sample.mk "magnet_conversion" 0)) = PollOutcome.dead ∧
    pollSample 7 (Sample.mk "downloading" 42) = PollOutcome.polling 0 ∧
    (uploadAndCacheMagnet (HandlerState.init 2) (Dirs.mk ["m1"] [] [] []) "m1"
        (RemoteEnv.mk (HttpReply.status 201 "T1") true
          (List.replicate 60 (Sample.mk "magnet_conversion" 0)) [])).outcome =
      UploadOutcome.deadFailed :=
  ⟨C1_dead_job_detection_amended.1 _ (by decide) (by decide),
   C1_dead_job_detection_amended.2.1 7 _ (by decide) (by decide),
   (C1_dead_job_detection_amended.2.2 _ _ _ _ "T1" rfl rfl (by decide) (by decide)
     (by decide)).1⟩

/-- Claim C2: the code leaks tracking entries for jobs that fail during
the upload/caching phase.  A watched descriptor is claimed by
`on_created` (inserted into `processing_files`, `upload_timestamps`,
`download_progress`); when the remote submission is rejected
(`add_torrent` returns `'FAILED'`, e.g. HTTP 503), the descriptor file
is moved to the failed terminal directory (app.py lines 157-165) but
`_upload_and_cache_magnet` returns `None` without touching any tracking
structure — the cleanup `finally` block exists only in
`_download_files_from_queue` (lines 381-391), which such a job never
reaches, and `_process_magnet_wrapper`'s except-block cleanup
(lines 86-97) is bypassed because the failure is signalled by a return
value, not an exception.  The terminal disposition therefore leaves the
job's entries leaked, contradicting the claimed finally-equivalent
destruction for every outcome. -/
theorem C2_upload_failure_leaks_tracking :
    (uploadAndCacheMagnet (onCreated (HandlerState.init 2) "job.magnet" 100)
        (Dirs.mk ["job.magnet"] [] [] []) "job.magnet"
        (RemoteEnv.mk (HttpReply.status 503 "") true [] [])).outcome =
      UploadOutcome.permanentFailed ∧
    "job.magnet" ∈ (uploadAndCacheMagnet (onCreated (HandlerState.init 2) "job.magnet" 100)
        (Dirs.mk ["job.magnet"] [] [] []) "job.magnet"
        (RemoteEnv.mk (HttpReply.status 503 "") true [] [])).dirs.failed_magnets ∧
    "job.magnet" ∈ (uploadAndCacheMagnet (onCreated (HandlerState.init 2) "job.magnet" 100)
        (Dirs.mk ["job.magnet"] [] [] []) "job.magnet"
        (RemoteEnv.mk (HttpReply.status 503 "") true [] [])).track.processing_files ∧
    "job.magnet" ∈ (uploadAndCacheMagnet (onCreated (HandlerState.init 2) "job.magnet" 100)
        (Dirs.mk ["job.magnet"] [] [] []) "job.magnet"
        (RemoteEnv.mk (HttpReply.status 503 "") true [] [])).track.download_progress ∧
    lookupE (uploadAndCacheMagnet (onCreated (HandlerState.init 2) "job.magnet" 100)
        (Dirs.mk ["job.magnet"] [] [] []) "job.magnet"
        (RemoteEnv.mk (HttpReply.status 503 "") true [] [])).track.upload_timestamps
      "job.magnet" = some 100 := by
  decide

theorem upload_preserves_retry (st : HandlerState) (dirs : Dirs) (p : String) (env : RemoteEnv) :
    (uploadAndCacheMagnet st dirs p env).track.retry_attempts = st.retry_attempts ∧
    (uploadAndCacheMagnet st dirs p env).track.retry_cooldown = st.retry_cooldown := by
  unfold uploadAndCacheMagnet
  split
  · exact ⟨rfl, rfl⟩
  split
  · exact ⟨rfl, rfl⟩
  split
  · exact ⟨rfl, rfl⟩
  · exact ⟨rfl, rfl⟩
  next tid effs heq =>
    split
    · exact ⟨rfl, rfl⟩
    split
    · exact ⟨rfl, rfl⟩
    · exact ⟨rfl, rfl⟩
    next results heq2 =>
      constructor
      · exact (processDownloadQueue_retry _).1
      · exact (processDownloadQueue_retry _).2.1

theorem hoster_below_max (st : HandlerState) (dirs : Dirs) (p : String)
    (results : List (String × String)) (eo : List Bool) (now : Nat)
    (hh : results.any (fun r => r.1 == hosterMarker) = true)
    (hlt : getE st.retry_attempts p 0 + 1 < 3) :
    lookupE (downloadFilesFromQueue st dirs p results eo false now).track.retry_attempts p =
      some (getE st.retry_attempts p 0 + 1) ∧
    lookupE (downloadFilesFromQueue st dirs p results eo false now).track.retry_cooldown p =
      some (now + 600) ∧
    (downloadFilesFromQueue st dirs p results eo false now).dirs = dirs := by
  have hng : ¬ 3 ≤ getE st.retry_attempts p 0 + 1 := by omega
  simp [downloadFilesFromQueue, hh, hng]
  constructor
  · rw [(processDownloadQueue_retry _).1]
    exact lookupE_setE _ _ _

  · rw [(processDownloadQueue_retry _).2.1]
    exact lookupE_setE _ _ _

theorem hoster_at_max (st : HandlerState) (dirs : Dirs) (p : String)
    (results : List (String × String)) (eo : List Bool) (now : Nat)
    (hh : results.any (fun r => r.1 == hosterMarker) = true)
    (hge : 3 ≤ getE st.retry_attempts p 0 + 1) :
    lookupE (downloadFilesFromQueue st dirs p results eo false now).track.retry_attempts p =
      none ∧
    lookupE (downloadFilesFromQueue st dirs p results eo false now).track.retry_cooldown p =
      none ∧
    p ∈ (downloadFilesFromQueue st dirs p results eo false now).dirs.failed_magnets ∧
    p ∉ (downloadFilesFromQueue st dirs p results eo false now).dirs.inbox := by
  simp [downloadFilesFromQueue, hh, hge, moveToFailed, mem_insertS, not_mem_eraseS]
  constructor
  · rw [(processDownloadQueue_retry _).1]
    exact lookupE_eraseE _ _
  · rw [(processDownloadQueue_retry _).2.1]
    exact lookupE_eraseE _ _

theorem rescan_cooldown_gate (st : HandlerState) (p : String) (now deadline : Nat)
    (hnp1 : p ∉ st.processing_files) (hnp2 : p ∉ st.ready_to_download)
    (hcd : lookupE st.retry_cooldown p = some deadline) :
    (now < deadline → processExistingMagnet st p now = (st, RescanAction.skippedCooldown)) ∧
    (deadline ≤ now →
      (processExistingMagnet st p now).2 = RescanAction.resubmitted ∧
      p ∈ (processExistingMagnet st p now).1.processing_files ∧
      lookupE (processExistingMagnet st p now).1.retry_cooldown p = none) := by
  constructor
  · intro hlt
    simp [processExistingMagnet, hnp1, hnp2, hcd, hlt]
  · intro hge
    have hnlt : ¬ now < deadline := by omega
    simp [processExistingMagnet, hnp1, hnp2, hcd, hnlt, mem_insertS, lookupE_eraseE]

theorem download_no_hoster_preserves_retry (st : HandlerState) (dirs : Dirs) (p : String)
    (results : List (String × String)) (eo : List Bool) (ab : Bool) (now : Nat)
    (hh : results.any (fun r => r.1 == hosterMarker) = false) :
    (downloadFilesFromQueue st dirs p results eo ab now).track.retry_attempts =
      st.retry_attempts ∧
    (downloadFilesFromQueue st dirs p results eo ab now).track.retry_cooldown =
      st.retry_cooldown := by
  by_cases hab : ab = true
  · simp only [downloadFilesFromQueue, hh, hab]
    simp
    exact ⟨(processDownloadQueue_retry _).1, (processDownloadQueue_retry _).2.1⟩
  · simp only [downloadFilesFromQueue, hh, hab]
    simp [hab]
    exact ⟨(processDownloadQueue_retry _).1, (processDownloadQueue_retry _).2.1⟩

theorem upload_failed_moves (st : HandlerState) (dirs : Dirs) (p : String) (env : RemoteEnv)
    (hin : p ∈ dirs.inbox) (hdup : p ∉ dirs.completed_magnets)
    (hf : (add_torrent env.add).1 = AddResult.failed) :
    (uploadAndCacheMagnet st dirs p env).outcome = UploadOutcome.permanentFailed ∧
    p ∈ (uploadAndCacheMagnet st dirs p env).dirs.failed_magnets ∧
    p ∉ (uploadAndCacheMagnet st dirs p env).dirs.inbox := by
  rcases hadd : add_torrent env.add with ⟨r, effs⟩
  rw [hadd] at hf
  simp at hf
  subst hf
  simp [uploadAndCacheMagnet, hin, hdup, hadd, moveToFailed, mem_insertS, not_mem_eraseS]

theorem upload_select_failed_moves (st : HandlerState) (dirs : Dirs) (p : String)
    (env : RemoteEnv) (tid : String)
    (hin : p ∈ dirs.inbox) (hdup : p ∉ dirs.completed_magnets)
    (hadd : env.add = HttpReply.status 201 tid) (hsel : env.selectOk = false) :
    (uploadAndCacheMagnet st dirs p env).outcome = UploadOutcome.selectFailed ∧
    p ∈ (uploadAndCacheMagnet st dirs p env).dirs.failed_magnets ∧
    p ∉ (uploadAndCacheMagnet st dirs p env).dirs.inbox := by
  simp [uploadAndCacheMagnet, hin, hdup, hadd, add_torrent, hsel, moveToFailed,
    mem_insertS, not_mem_eraseS]

/-- Claim C3, counterexample: a network-error submission (one of the
spec's failure classes) increments nothing, but it also does not move
the descriptor to a terminal directory — `add_torrent` returns `None`
(app.py lines 478-480) and `_upload_and_cache_magnet` returns at line
156 leaving the file in the inbox, refuting "no other failure class
increments retryCount — those move the descriptor to a terminal
directory immediately". -/
theorem C3_counterexample :
    (uploadAndCacheMagnet (onCreated (HandlerState.init 2) "n1.magnet" 50)
        (Dirs.mk ["n1.magnet"] [] [] []) "n1.magnet"
        (RemoteEnv.mk HttpReply.netError true [] [])).outcome = UploadOutcome.abandoned ∧
    "n1.magnet" ∈ (uploadAndCacheMagnet (onCreated (HandlerState.init 2) "n1.magnet" 50)
        (Dirs.mk ["n1.magnet"] [] [] []) "n1.magnet"
        (RemoteEnv.mk HttpReply.netError true [] [])).dirs.inbox ∧
    "n1.magnet" ∉ (uploadAndCacheMagnet (onCreated (HandlerState.init 2) "n1.magnet" 50)
        (Dirs.mk ["n1.magnet"] [] [] []) "n1.magnet"
        (RemoteEnv.mk HttpReply.netError true [] [])).dirs.failed_magnets ∧
    "n1.magnet" ∉ (uploadAndCacheMagnet (onCreated (HandlerState.init 2) "n1.magnet" 50)
        (Dirs.mk ["n1.magnet"] [] [] []) "n1.magnet"
        (RemoteEnv.mk HttpReply.netError true [] [])).dirs.completed_magnets ∧
    lookupE (uploadAndCacheMagnet (onCreated (HandlerState.init 2) "n1.magnet" 50)
        (Dirs.mk ["n1.magnet"] [] [] []) "n1.magnet"
        (RemoteEnv.mk HttpReply.netError true [] [])).track.retry_attempts "n1.magnet" =
      none := by
  decide

/-- Claim C3 (amended). -/
theorem C3_retry_policy_amended :
    (∀ (st : HandlerState) (dirs : Dirs) (p : String) (results : List (String × String))
       (eo : List Bool) (now : Nat),
      results.any (fun r => r.1 == hosterMarker) = true →
      (getE st.retry_attempts p 0 + 1 < 3 →
        lookupE (downloadFilesFromQueue st dirs p results eo false now).track.retry_attempts
            p = some (getE st.retry_attempts p 0 + 1) ∧
        lookupE (downloadFilesFromQueue st dirs p results eo false now).track.retry_cooldown
            p = some (now + 600) ∧
        (downloadFilesFromQueue st dirs p results eo false now).dirs = dirs) ∧
      (3 ≤ getE st.retry_attempts p 0 + 1 →
        lookupE (downloadFilesFromQueue st dirs p results eo false now).track.retry_attempts
            p = none ∧
        lookupE (downloadFilesFromQueue st dirs p results eo false now).track.retry_cooldown
            p = none ∧
        p ∈ (downloadFilesFromQueue st dirs p results eo false now).dirs.failed_magnets ∧
        p ∉ (downloadFilesFromQueue st dirs p results eo false now).dirs.inbox)) ∧
    (∀ (st : HandlerState) (p : String) (now deadline : Nat),
      p ∉ st.processing_files → p ∉ st.ready_to_download →
      lookupE st.retry_cooldown p = some deadline →
      (now < deadline → processExistingMagnet st p now = (st, RescanAction.skippedCooldown)) ∧
      (deadline ≤ now →
        (processExistingMagnet st p now).2 = RescanAction.resubmitted ∧
        p ∈ (processExistingMagnet st p now).1.processing_files ∧
        lookupE (processExistingMagnet st p now).1.retry_cooldown p = none)) ∧
    (∀ (st : HandlerState) (dirs : Dirs) (p : String) (env : RemoteEnv),
      (uploadAndCacheMagnet st dirs p env).track.retry_attempts = st.retry_attempts) ∧
    (∀ (st : HandlerState) (dirs : Dirs) (p : String) (results : List (String × String))
       (eo : List Bool) (ab : Bool) (now : Nat),
      results.any (fun r => r.1 == hosterMarker) = false →
      (downloadFilesFromQueue st dirs p results eo ab now).track.retry_attempts =
        st.retry_attempts) ∧
    (∀ (st : HandlerState) (dirs : Dirs) (p : String) (env : RemoteEnv),
      p ∈ dirs.inbox → p ∉ dirs.completed_magnets →
      (add_torrent env.add).1 = AddResult.failed →
      p ∈ (uploadAndCacheMagnet st dirs p env).dirs.failed_magnets ∧
      p ∉ (uploadAndCacheMagnet st dirs p env).dirs.inbox) :=
  ⟨fun st dirs p results eo now hh =>
    ⟨fun hlt => hoster_below_max st dirs p results eo now hh hlt,
     fun hge => hoster_at_max st dirs p results eo now hh hge⟩,
   fun st p now deadline h1 h2 hcd => rescan_cooldown_gate st p now deadline h1 h2 hcd,
   fun st dirs p env => (upload_preserves_retry st dirs p env).1,
   fun st dirs p results eo ab now hh =>
     (download_no_hoster_preserves_retry st dirs p results eo ab now hh).1,
   fun st dirs p env hin hdup hf => (upload_failed_moves st dirs p env hin hdup hf).2⟩

/-- Witness for C3 at concrete inputs. -/
theorem C3_witness :
    lookupE ((downloadFilesFromQueue (onCreated (HandlerState.init 2) "h1" 5)
        (Dirs.mk ["h1"] [] [] []) "h1" [(hosterMarker, "f.mkv")] [] false
        1000).track).retry_cooldown "h1" = some 1600 ∧
    "h1" ∈ (downloadFilesFromQueue
        { onCreated (HandlerState.init 2) "h1" 5 with retry_attempts := [("h1", 2)] }
        (Dirs.mk ["h1"] [] [] []) "h1" [(hosterMarker, "f.mkv")] [] false
        2000).dirs.failed_magnets ∧
    (processExistingMagnet
        { HandlerState.init 2 with retry_cooldown := [("h1", 1600)] } "h1" 1500) =
      ({ HandlerState.init 2 with retry_cooldown := [("h1", 1600)] },
        RescanAction.skippedCooldown) ∧
    (processExistingMagnet
        { HandlerState.init 2 with retry_cooldown := [("h1", 1600)] } "h1" 1700).2 =
      RescanAction.resubmitted :=
  ⟨(C3_retry_policy_amended.1 _ _ "h1" _ [] 1000 (by decide)).1 (by decide) |>.2.1,
   ((C3_retry_policy_amended.1 _ _ "h1" _ [] 2000 (by decide)).2 (by decide)).2.2.1,
   (C3_retry_policy_amended.2.1 _ "h1" 1500 1600 (by decide) (by decide) (by decide)).1
     (by decide),
   ((C3_retry_policy_amended.2.1 _ "h1" 1700 1600 (by decide) (by decide) (by decide)).2
     (by decide)).1⟩

theorem sorted_take_drop (l : List QItem) (n : Nat) :
    (List.insertionSort tsLE l).Sorted tsLE ∧
    ((List.insertionSort tsLE l).take n).Sorted tsLE ∧
    (∀ a ∈ (List.insertionSort tsLE l).take n,
      ∀ b ∈ (List.insertionSort tsLE l).drop n, a.1 ≤ b.1) := by
  have hs : (List.insertionSort tsLE l).Sorted tsLE := List.sorted_insertionSort tsLE l
  refine ⟨hs, hs.sublist (List.take_sublist n _), ?_⟩
  have key : List.Pairwise tsLE
      ((List.insertionSort tsLE l).take n ++ (List.insertionSort tsLE l).drop n) := by
    rw [List.take_append_drop]
    exact hs
  exact fun a ha b hb => (List.pairwise_append.mp key).2.2 a ha b hb

/-- Claim C4, counterexample: with a pool of size 1 and three jobs
detected at times 1 < 2 < 3, if the youngest job (detected at 3)
finishes caching while the two older jobs are still in the caching
phase, `_process_download_queue` admits it at once — admission only
orders jobs that are already queued (app.py lines 243-254), so the jobs
start downloading in the order t3, t1, t2, not t1, t2, t3 as the claim
requires "regardless of caching completion order". -/
theorem C4_counterexample :
    (runQueue
        { HandlerState.init 1 with
          processing_files := ["t1", "t2", "t3"]
          upload_timestamps := [("t1", 1), ("t2", 2), ("t3", 3)] }
        [QEvent.cachedReady "t3" [("u3", "f3")], QEvent.cachedReady "t1" [("u1", "f1")],
         QEvent.cachedReady "t2" [("u2", "f2")], QEvent.finished "t3",
         QEvent.finished "t1", QEvent.finished "t2"]).2 = ["t3", "t1", "t2"] ∧
    (1 : Nat) < 2 ∧ (2 : Nat) < 3 := by
  decide

/-- Claim C4 (amended): whenever slots free up, `_process_download_queue`
starts, among the jobs *currently queued* and still tracked, those with
the oldest detection timestamps, in ascending timestamp order; every
started job's timestamp is at most that of every eligible job left
queued.  (A job that completes caching while a slot is free may still be
admitted ahead of an older job whose caching has not finished, as the
counterexample shows.) -/
theorem C4_fifo_admission_amended (st : HandlerState) :
    (processDownloadQueue st).2 =
      (List.insertionSort tsLE (eligibleItems st)).take
        (min (st.max_workers - st.downloading_files.length)
          (List.insertionSort tsLE (eligibleItems st)).length) ∧
    ((processDownloadQueue st).2).Sorted tsLE ∧
    (∀ a ∈ (processDownloadQueue st).2,
      ∀ b ∈ (List.insertionSort tsLE (eligibleItems st)).drop
        (min (st.max_workers - st.downloading_files.length)
          (List.insertionSort tsLE (eligibleItems st)).length), a.1 ≤ b.1) := by
  by_cases h : st.max_workers - st.downloading_files.length = 0 ∨ st.queued_for_download = []
  · have he : (processDownloadQueue st).2 = [] := by simp [processDownloadQueue, h]
    rcases h with h | h
    · simp [he, h]
    · have hel : eligibleItems st = [] := by simp [eligibleItems, h]
      simp [he, hel]
  · have he : (processDownloadQueue st).2 =
        (List.insertionSort tsLE (eligibleItems st)).take
          (min (st.max_workers - st.downloading_files.length)
            (List.insertionSort tsLE (eligibleItems st)).length) := by
      simp [processDownloadQueue, h]
    obtain ⟨_, h2, h3⟩ := sorted_take_drop (eligibleItems st)
      (min (st.max_workers - st.downloading_files.length)
        (List.insertionSort tsLE (eligibleItems st)).length)
    exact ⟨he, he ▸ h2, he ▸ h3⟩

/-- Witness for C4 at a concrete state: one free slot, two queued jobs;
the older one (timestamp 1) is started even though it was queued second,
and its timestamp is at most that of the job left queued. -/
theorem C4_witness :
    (processDownloadQueue
        { HandlerState.init 1 with
          processing_files := ["a", "b"]
          queued_for_download := [("b", [("u", "f")]), ("a", [("u", "f")])]
          upload_timestamps := [("a", 1), ("b", 2)] }).2 =
      [((1 : Nat), "a", [("u", "f")])] ∧
    ((1 : Nat), "a", [("u", "f")]).1 ≤ ((2 : Nat), "b", [("u", "f")]).1 :=
  ⟨((C4_fifo_admission_amended
      { HandlerState.init 1 with
        processing_files := ["a", "b"]
        queued_for_download := [("b", [("u", "f")]), ("a", [("u", "f")])]
        upload_timestamps := [("a", 1), ("b", 2)] }).1).trans (by decide),
   (C4_fifo_admission_amended
      { HandlerState.init 1 with
        processing_files := ["a", "b"]
        queued_for_download := [("b", [("u", "f")]), ("a", [("u", "f")])]
        upload_timestamps := [("a", 1), ("b", 2)] }).2.2
     ((1 : Nat), "a", [("u", "f")]) (by decide) ((2 : Nat), "b", [("u", "f")]) (by decide)⟩

/-- Claim C5, counterexample: one entry, no hoster-unavailable marker,
and the entry's download fails (its exception is logged at app.py lines
327-332 / 933-936 and ignored); `_download_files_from_queue`
nevertheless moves the descriptor to the completed-magnets directory
(lines 354-377), not the failed one, refuting "the job as a whole is
considered failed". -/
theorem C5_counterexample :
    "m1" ∈ (downloadFilesFromQueue (onCreated (HandlerState.init 2) "m1" 5)
        (Dirs.mk ["m1"] [] [] []) "m1" [("http://u", "f.mkv")] [false] false
        1000).dirs.completed_magnets ∧
    "m1" ∉ (downloadFilesFromQueue (onCreated (HandlerState.init 2) "m1" 5)
        (Dirs.mk ["m1"] [] [] []) "m1" [("http://u", "f.mkv")] [false] false
        1000).dirs.failed_magnets ∧
    lookupE (downloadFilesFromQueue (onCreated (HandlerState.init 2) "m1" 5)
        (Dirs.mk ["m1"] [] [] []) "m1" [("http://u", "f.mkv")] [false] false
        1000).track.retry_cooldown "m1" = none := by
  decide

/-- Claim C5 (amended): per-entry failures are logged and abort nothing —
the job-level control flow of `_download_files_from_queue` is completely
independent of the per-entry outcomes, and every well-formed entry is
submitted for download; but when no hoster-unavailable marker is present
(and no abort occurred) the descriptor is moved to the completed-magnets
directory regardless of whether any entry ever completed — it is not
routed to the failed directory and does not enter retry cooldown. -/
theorem C5_entry_failure_amended :
    (∀ (st : HandlerState) (dirs : Dirs) (p : String) (results : List (String × String))
       (eo eo' : List Bool) (ab : Bool) (now : Nat),
      downloadFilesFromQueue st dirs p results eo ab now =
        downloadFilesFromQueue st dirs p results eo' ab now) ∧
    (∀ (st : HandlerState) (dirs : Dirs) (p : String) (results : List (String × String))
       (eo : List Bool) (ab : Bool) (now : Nat) (i : Nat) (r : String × String),
      results.any (fun x => x.1 == hosterMarker) = false →
      i < results.length → results.get? i = some r → r.1 ≠ "" → r.2 ≠ "" →
      i ∈ (downloadFilesFromQueue st dirs p results eo ab now).submitted) ∧
    (∀ (st : HandlerState) (dirs : Dirs) (p : String) (results : List (String × String))
       (eo : List Bool) (now : Nat),
      results.any (fun x => x.1 == hosterMarker) = false →
      p ∈ dirs.inbox →
      p ∈ (downloadFilesFromQueue st dirs p results eo false now).dirs.completed_magnets ∧
      (downloadFilesFromQueue st dirs p results eo false now).dirs.failed_magnets =
        dirs.failed_magnets ∧
      (downloadFilesFromQueue st dirs p results eo false now).track.retry_cooldown =
        st.retry_cooldown) := by
  refine ⟨fun st dirs p results eo eo' ab now => rfl, ?_, ?_⟩
  · intro st dirs p results eo ab now i r hh hi hr hr1 hr2
    have hg : results[i] = r := by
      rw [List.get?_eq_getElem?, List.getElem?_eq_getElem hi] at hr
      exact Option.some_injective _ hr
    by_cases hab : ab = true
    · simp [downloadFilesFromQueue, hh, hab, List.mem_filter, List.mem_range, hi, hr, hg,
        hr1, hr2]
    · simp [downloadFilesFromQueue, hh, hab, List.mem_filter, List.mem_range, hi, hr, hg,
        hr1, hr2]
  · intro st dirs p results eo now hh hin
    refine ⟨?_, ?_, (download_no_hoster_preserves_retry st dirs p results eo false now hh).2⟩
    · simp [downloadFilesFromQueue, hh, hin, mem_insertS]
    · simp [downloadFilesFromQueue, hh, hin]

/-- Witness for C5 at concrete inputs. -/
theorem C5_witness :
    (0 : Nat) ∈ (downloadFilesFromQueue (onCreated (HandlerState.init 2) "w5" 5)
        (Dirs.mk ["w5"] [] [] []) "w5" [("http://u", "f.mkv")] [false] false
        1000).submitted ∧
    "w5" ∈ (downloadFilesFromQueue (onCreated (HandlerState.init 2) "w5" 5)
        (Dirs.mk ["w5"] [] [] []) "w5" [("http://u", "f.mkv")] [false] false
        1000).dirs.completed_magnets :=
  ⟨C5_entry_failure_amended.2.1 _ _ "w5" _ [false] false 1000 0 ("http://u", "f.mkv")
     (by decide) (by decide) (by decide) (by decide) (by decide),
   (C5_entry_failure_amended.2.2 _ _ "w5" _ [false] 1000 (by decide) (by decide)).1⟩

/-- Claim C6, counterexample: on HTTP 429 `add_torrent` sleeps 60 seconds
and returns `None` (app.py lines 460-463) — the submit call is issued
exactly once, not retried: the claim's "retries the same submit call
exactly once" would require two submissions. -/
theorem C6_counterexample :
    countSubmits (add_torrent (HttpReply.status 429 "")).2 = 1 ∧
    countSubmits (add_torrent (HttpReply.status 429 "")).2 ≠ 2 ∧
    (add_torrent (HttpReply.status 429 "")).1 = AddResult.nothing := by
  decide

/-- Claim C6 (amended): on a rate-limited (HTTP 429) submit reply the
controller performs the local 60-second backoff sleep and then abandons
the attempt — `add_torrent` returns `None` after exactly one submission,
with no retry of the call; `_upload_and_cache_magnet` leaves the
descriptor in the inbox (no terminal move, no `retryCount` increment)
and every tracking structure untouched.  Because the failure is
signalled by a return value, the job's `processing_files` entry is left
in place, so the periodic rescan skips the descriptor (app.py line
1252) rather than resubmitting it. -/
theorem C6_rate_limited_amended :
    (∀ tid : String,
      add_torrent (HttpReply.status 429 tid) =
        (AddResult.nothing, [Effect.submitted, Effect.slept 60]) ∧
      countSubmits (add_torrent (HttpReply.status 429 tid)).2 = 1) ∧
    (∀ (st : HandlerState) (dirs : Dirs) (p : String) (env : RemoteEnv) (tid : String),
      env.add = HttpReply.status 429 tid →
      p ∈ dirs.inbox → p ∉ dirs.completed_magnets →
      (uploadAndCacheMagnet st dirs p env).outcome = UploadOutcome.abandoned ∧
      (uploadAndCacheMagnet st dirs p env).dirs = dirs ∧
      (uploadAndCacheMagnet st dirs p env).track = st) ∧
    (∀ (st : HandlerState) (p : String) (now : Nat),
      p ∈ st.processing_files →
      processExistingMagnet st p now = (st, RescanAction.skippedProcessing)) := by
  refine ⟨fun tid => ⟨rfl, rfl⟩, ?_, ?_⟩
  · intro st dirs p env tid hadd hin hdup
    simp [uploadAndCacheMagnet, hin, hdup, hadd, add_torrent]
  · intro st p now h1
    simp [processExistingMagnet, h1]

/-- Witness for C6 at the concrete post-429 flow: the upload attempt is
abandoned with the tracking state exactly as `on_created` left it, and
the periodic rescan, run on that very state, skips the descriptor
because its `processing_files` entry is still present. -/
theorem C6_witness :
    (uploadAndCacheMagnet (onCreated (HandlerState.init 2) "r1.magnet" 7)
        (Dirs.mk ["r1.magnet"] [] [] []) "r1.magnet"
        (RemoteEnv.mk (HttpReply.status 429 "") true [] [])).outcome =
      UploadOutcome.abandoned ∧
    processExistingMagnet
        (uploadAndCacheMagnet (onCreated (HandlerState.init 2) "r1.magnet" 7)
          (Dirs.mk ["r1.magnet"] [] [] []) "r1.magnet"
          (RemoteEnv.mk (HttpReply.status 429 "") true [] [])).track "r1.magnet" 99 =
      ((uploadAndCacheMagnet (onCreated (HandlerState.init 2) "r1.magnet" 7)
          (Dirs.mk ["r1.magnet"] [] [] []) "r1.magnet"
          (RemoteEnv.mk (HttpReply.status 429 "") true [] [])).track,
        RescanAction.skippedProcessing) :=
  ⟨(C6_rate_limited_amended.2.1 _ _ "r1.magnet" _ "" rfl (by decide) (by decide)).1,
   C6_rate_limited_amended.2.2 _ "r1.magnet" 99 (by decide)⟩

theorem chunkLoop_aborts_at_removal :
    ∀ (pre : List Bool) (rest : List Bool) (w : Nat), (∀ b ∈ pre, b = true) →
    chunkLoopGo (pre ++ false :: rest) w = (w + pre.length, true, true) := by
  intro pre
  induction pre with
  | nil => intro rest w _; simp [chunkLoopGo]
  | cons b bs ih =>
    intro rest w hall
    have hb : b = true := hall b (List.mem_cons_self b bs)
    subst hb
    simp only [List.cons_append, chunkLoopGo]
    rw [if_neg (by simp)]
    rw [List.append_eq, ih rest (w + 1) (fun x hx => hall x (List.mem_cons_of_mem _ hx))]
    simp only [List.length_cons, Prod.mk.injEq, and_true]
    omega

theorem waitLoop_aborts_at_removal :
    ∀ (obs : List (Bool × Nat)) (total completed c : Nat) (rest : List (Bool × Nat)),
    completed < total → (∀ e ∈ obs, e.1 = true ∧ e.2 < total) →
    waitLoopGo total completed (obs ++ (false, c) :: rest) = WaitLoopOutcome.aborted := by
  intro obs
  induction obs with
  | nil =>
    intro total completed c rest hc _
    simp only [List.nil_append, waitLoopGo]
    rw [if_neg (Nat.not_le.mpr hc)]
    simp
  | cons e es ih =>
    intro total completed c rest hc hall
    obtain ⟨m, cnt⟩ := e
    obtain ⟨he1, he2⟩ := hall (m, cnt) (List.mem_cons_self _ es)
    simp only at he1 he2
    subst he1
    simp only [List.cons_append, waitLoopGo]
    rw [if_neg (Nat.not_le.mpr hc)]
    rw [if_neg (by simp)]
    exact ih total cnt c rest he2 (fun x hx => hall x (List.mem_cons_of_mem _ hx))

theorem pollRunObs_blind (m m' : Nat → Bool) :
    ∀ (samples : List Sample) (zc i : Nat),
    pollRunObs m zc i samples = pollRunObs m' zc i samples := by
  intro samples
  induction samples with
  | nil => intro zc i; rfl
  | cons s rest ih =>
    intro zc i
    simp only [pollRunObs]
    cases pollSample zc s with
    | polling zc2 => exact ih zc2 (i + 1)
    | dead => rfl
    | completed => rfl

/-- Claim C7, counterexample: the caching-status polling loop of
`wait_for_torrent` contains no `processing_files` membership test
(app.py lines 579-649) — with the job's identity removed from the
active-tracking set before polling starts (membership `false` at every
iteration boundary), the loop still consumes all sixty samples and
returns the dead verdict instead of exiting at the first boundary. -/
theorem C7_counterexample :
    (fun _ : Nat => false) 0 = false ∧
    (pollRunObs (fun _ => false) 0 0
        (List.replicate 60 (Sample.mk "magnet_conversion" 0))).2 = 60 ∧
    (pollRunObs (fun _ => false) 0 0
        (List.replicate 60 (Sample.mk "magnet_conversion" 0))).1 = PollOutcome.dead := by
  refine ⟨rfl, ?_, ?_⟩ <;> decide

/-- Claim C7 (amended): the per-file chunk loop of `download_file` and
the future-watching loop of `_download_files_from_queue` check
`processing_files` membership at every iteration boundary and exit
cleanly at the first boundary observing the removal (the chunk loop
deleting the partial staging file); the caching-status polling loop of
`wait_for_torrent`, however, performs no membership check at all — its
behaviour is identical under every membership observation sequence. -/
theorem C7_cancellation_amended :
    (∀ (pre rest : List Bool) (w : Nat), (∀ b ∈ pre, b = true) →
      chunkLoopGo (pre ++ false :: rest) w = (w + pre.length, true, true)) ∧
    (∀ (obs : List (Bool × Nat)) (total completed c : Nat) (rest : List (Bool × Nat)),
      completed < total → (∀ e ∈ obs, e.1 = true ∧ e.2 < total) →
      waitLoopGo total completed (obs ++ (false, c) :: rest) = WaitLoopOutcome.aborted) ∧
    (∀ (m m' : Nat → Bool) (samples : List Sample) (zc i : Nat),
      pollRunObs m zc i samples = pollRunObs m' zc i samples) :=
  ⟨chunkLoop_aborts_at_removal,
   waitLoop_aborts_at_removal,
   fun m m' => pollRunObs_blind m m'⟩

/-- Witness for C7 at concrete inputs: a download aborted at the third
chunk boundary has written two chunks and deleted its staging file; a
wait loop whose job is removed on the second iteration aborts. -/
theorem C7_witness :
    chunkLoopGo [true, true, false, true] 0 = (2, true, true) ∧
    waitLoopGo 3 0 [(true, 1), (false, 1)] = WaitLoopOutcome.aborted :=
  ⟨C7_cancellation_amended.1 [true, true] [true] 0 (by decide),
   C7_cancellation_amended.2.1 [(true, 1)] 3 0 1 [] (by decide) (by decide)⟩

/-- Claim C8 (confirmed): for a descriptor whose name is already present
in the completed-magnets terminal directory, `_upload_and_cache_magnet`
deletes the inbox duplicate and returns `None` before any remote call
(app.py lines 126-131): no remote submission is made, no other
directory changes, nothing is queued and no tracking structure is
touched — no second live job is created. -/
theorem C8_duplicate_descriptor (st : HandlerState) (dirs : Dirs) (p : String)
    (env : RemoteEnv) (hin : p ∈ dirs.inbox) (hdup : p ∈ dirs.completed_magnets) :
    (uploadAndCacheMagnet st dirs p env).outcome = UploadOutcome.duplicateRemoved ∧
    (uploadAndCacheMagnet st dirs p env).calls = [] ∧
    p ∉ (uploadAndCacheMagnet st dirs p env).dirs.inbox ∧
    (uploadAndCacheMagnet st dirs p env).dirs.completed_magnets = dirs.completed_magnets ∧
    (uploadAndCacheMagnet st dirs p env).dirs.failed_magnets = dirs.failed_magnets ∧
    (uploadAndCacheMagnet st dirs p env).track = st := by
  simp [uploadAndCacheMagnet, hin, hdup, not_mem_eraseS]

/-- Witness for C8 at concrete inputs. -/
theorem C8_witness :
    (uploadAndCacheMagnet (HandlerState.init 2)
        (Dirs.mk ["dup.magnet"] [] ["dup.magnet"] []) "dup.magnet"
        (RemoteEnv.mk (HttpReply.status 201 "T9") true [] [])).outcome =
      UploadOutcome.duplicateRemoved ∧
    (uploadAndCacheMagnet (HandlerState.init 2)
        (Dirs.mk ["dup.magnet"] [] ["dup.magnet"] []) "dup.magnet"
        (RemoteEnv.mk (HttpReply.status 201 "T9") true [] [])).calls = [] :=
  ⟨(C8_duplicate_descriptor _ _ "dup.magnet" _ (by decide) (by decide)).1,
   (C8_duplicate_descriptor _ _ "dup.magnet" _ (by decide) (by decide)).2.1⟩

/-- Claim C9 (confirmed): with auto-extraction enabled, for a file whose
name matches a known archive extension, validation (size floor and
magic-byte header check, `validate_archive`) precedes extraction; on
validation failure the file is not extracted and is handled as an
opaque payload (the plain move); on successful extraction the original
archive is deleted; on extraction failure the archive is kept in the
completed directory under the `FAILED_EXTRACT_` prefix; and the
post-processing outcomes never change the job-level disposition of
`_download_files_from_queue` (the overall job is never failed by this
step). -/
theorem C9_archive_post_processing (f : ArchiveFile) (extractOk dup : Bool) :
    (is_archive_file f.path = true → validate_archive f = false →
      postProcess true f extractOk dup = normalMove f.path dup) ∧
    (is_archive_file f.path = true → validate_archive f = true → extractOk = true →
      postProcess true f extractOk dup = FileDisposition.extractedAndDeleted) ∧
    (is_archive_file f.path = true → validate_archive f = true → extractOk = false →
      postProcess true f extractOk dup =
        FileDisposition.failedExtractKept ("FAILED_EXTRACT_" ++ f.path)) ∧
    (∀ (st : HandlerState) (dirs : Dirs) (p : String) (results : List (String × String))
       (eo eo' : List Bool) (ab : Bool) (now : Nat),
      downloadFilesFromQueue st dirs p results eo ab now =
        downloadFilesFromQueue st dirs p results eo' ab now) := by
  refine ⟨?_, ?_, ?_, fun st dirs p results eo eo' ab now => rfl⟩
  · intro ha hv
    simp [postProcess, ha, hv]
  · intro ha hv he
    simp [postProcess, ha, hv, he]
  · intro ha hv he
    subst he
    simp [postProcess, ha, hv]

/-- Witness for C9 at concrete inputs: a valid zip archive is extracted
and its original deleted, the same archive with a failing extractor is
kept under the `FAILED_EXTRACT_` prefix, and a zip-named file with a
wrong header is moved as an opaque payload. -/
theorem C9_witness :
    postProcess true (ArchiveFile.mk "show.zip" 4096 [80, 75, 3, 4]) true false =
      FileDisposition.extractedAndDeleted ∧
    postProcess true (ArchiveFile.mk "show.zip" 4096 [80, 75, 3, 4]) false false =
      FileDisposition.failedExtractKept "FAILED_EXTRACT_show.zip" ∧
    postProcess true (ArchiveFile.mk "bad.zip" 4096 [0, 1]) true false =
      FileDisposition.movedToCompleted "bad.zip" :=
  ⟨(C9_archive_post_processing (ArchiveFile.mk "show.zip" 4096 [80, 75, 3, 4]) true
      false).2.1 (by decide) (by decide) rfl,
   (C9_archive_post_processing (ArchiveFile.mk "show.zip" 4096 [80, 75, 3, 4]) false
      false).2.2.1 (by decide) (by decide) rfl,
   (C9_archive_post_processing (ArchiveFile.mk "bad.zip" 4096 [0, 1]) true
      false).1 (by decide) (by decide)⟩

/-- Claim C10 (confirmed): `validate_archive` additionally rejects any
file whose lower-cased name contains one of `.exe`, `.bat`, `.cmd`,
`.scr`, `.com` (app.py lines 974-978) — even when the size floor is met
and regardless of the header bytes, since the check precedes the
header comparison — and such a file is consequently never extracted:
post-processing falls through to the opaque-payload move. -/
theorem C10_suspicious_name_rejected (f : ArchiveFile)
    (hsize : ¬ f.size < 1024)
    (hsus : suspiciousMarkers.any (fun m => strContainsSub (strLower f.path) m) = true) :
    validate_archive f = false ∧
    ∀ extractOk dup : Bool,
      postProcess true f extractOk dup = normalMove f.path dup := by
  have hv : validate_archive f = false := by
    simp [validate_archive, hsize, hsus]
  refine ⟨hv, fun extractOk dup => ?_⟩
  by_cases ha : is_archive_file f.path = true
  · simp [postProcess, ha, hv]
  · simp [postProcess, ha]

/-- Witness for C10: a 2 KiB file named `setup.exe.zip` whose header is
a genuine zip signature is rejected by validation and never extracted. -/
theorem C10_witness :
    zipMagic.isPrefixOf ((ArchiveFile.mk "setup.exe.zip" 2048 [80, 75, 3, 4]).header.take 10) =
      true ∧
    validate_archive (ArchiveFile.mk "setup.exe.zip" 2048 [80, 75, 3, 4]) = false ∧
    postProcess true (ArchiveFile.mk "setup.exe.zip" 2048 [80, 75, 3, 4]) true false =
      FileDisposition.movedToCompleted "setup.exe.zip" :=
  ⟨by decide,
   (C10_suspicious_name_rejected (ArchiveFile.mk "setup.exe.zip" 2048 [80, 75, 3, 4])
      (by decide) (by decide)).1,
   (C10_suspicious_name_rejected (ArchiveFile.mk "setup.exe.zip" 2048 [80, 75, 3, 4])
      (by decide) (by decide)).2 true false⟩

end Debridarr
